import Mathlib

/-!
Verification of the email-classification engine
(`email_classifier.py`, `classifiers/urgency_classifier.py`,
`classifiers/department_classifier.py`, `core/patterns.py`,
`core/validators.py`, `core/models.py`, `config/models.py`).

Shallow embedding conventions:
* Python floats are modelled as rationals (`ℚ`); all confidence and score
  formulas in the source are exact decimal arithmetic, so `ℚ` mirrors them.
* A regular-expression rule is modelled abstractly: the only operation the
  engine performs on a rule is `len(re.findall(pattern, text, re.IGNORECASE))`,
  which either yields a count or raises `re.error` at compile time for a
  malformed pattern.  `Rule` therefore is either `valid f` with a match-count
  function `f : String → ℕ`, or `malformed`.
* Optional signal providers (emotion model, BERT zero-shot) are modelled by an
  explicit behaviour value (`ProviderBehaviour`): the provider object is
  absent, the call raises (incrementing the failure counter, as in
  `ModelManager.safe_model_call`), or the call returns a result
  (`none` standing for an unusable/falsy result, which the callers skip).
* The mutable `ModelManager` failure counters are threaded as explicit state.
* `str.lower` / `str.isupper` are modelled with `Char.toLower` / `Char.isUpper`
  (exact on the ASCII texts the engine manipulates).
-/

/-- The four urgency levels (fixed enumeration in `_build_urgency_patterns`). -/
inductive Urgency
| critical
| high
| medium
| low
deriving DecidableEq, Repr

/-- The four departments (fixed enumeration in `_build_department_patterns`). -/
inductive Dept
| technical
| billing
| sales
| support
deriving DecidableEq, Repr

/-- A regex rule: `valid f` abstracts a well-formed pattern by its
case-insensitive match-count function, `malformed` a pattern on which
`re.findall` raises `re.error`. -/
inductive Rule
| valid (count : String → ℕ)
| malformed

/-- Match count of one rule against a text (`malformed` never matches since
`re.error` is caught and the rule skipped). -/
def Rule.matchCount (t : String) : Rule → ℕ
| valid c => c t
| malformed => 0

/-- PatternManager.calculate_pattern_score: add `matches * weight` per rule,
skipping malformed rules (`except re.error: continue`). -/
def calculatePatternScore (text : String) (patterns : List Rule) (weight : ℚ) : ℚ :=
  patterns.foldl
    (fun score p =>
      match p with
      | Rule.valid c => score + (c text : ℚ) * weight
      | Rule.malformed => score)
    0

/-- Python `str.lower()` (on the code-point list, mirroring Python's
per-character lowering). -/
def strLower (s : String) : String := String.mk (s.toList.map Char.toLower)

/-- Python slicing `s[:n]` (by code points). -/
def strTake (s : String) (n : ℕ) : String := String.mk (s.toList.take n)

/-- Python `needle in hay` on lists of characters: `listPrefixOf n h` is
`h.startswith(n)`. -/
def listPrefixOf : List Char → List Char → Bool
| [], _ => true
| _ :: _, [] => false
| a :: as, b :: bs => a == b && listPrefixOf as bs

/-- Python substring containment `needle in hay` over the character lists. -/
def listInfixOf (needle : List Char) : List Char → Bool
| [] => needle.isEmpty
| b :: t => listPrefixOf needle (b :: t) || listInfixOf needle t

/-- Python `needle in hay` for strings. -/
def strContains (hay needle : String) : Bool := listInfixOf needle.toList hay.toList

/-- Number of uppercase characters of a text (`sum(1 for c in text if c.isupper())`). -/
def countUpper (s : String) : ℕ := s.toList.countP (fun c => c.isUpper)

/-- Number of occurrences of a character (`text.count('!')`). -/
def countChar (s : String) (c : Char) : ℕ := s.toList.count c

/-- config/models.py `PatternWeights` dataclass. -/
structure PatternWeights where
  corePatternWeight : ℚ
  secondaryPatternWeight : ℚ
  capsRatioWeight : ℚ
  exclamationWeight : ℚ
  positiveWordsWeight : ℚ
  departmentSignalWeight : ℚ

/-- Default `PatternWeights` values. -/
def PatternWeights.default : PatternWeights :=
  ⟨2, 1.5, 3, 0.8, 1.5, 3⟩

/-- config/models.py `UrgencyThresholds` dataclass. -/
structure UrgencyThresholds where
  criticalThreshold : ℚ
  highThreshold : ℚ
  mediumThreshold : ℚ
  lowThreshold : ℚ
  criticalMaxConfidence : ℚ
  highMaxConfidence : ℚ
  mediumMaxConfidence : ℚ
  lowMaxConfidence : ℚ

/-- Default `UrgencyThresholds` values. -/
def UrgencyThresholds.default : UrgencyThresholds :=
  ⟨4, 2, 1, 0.5, 0.95, 0.90, 0.85, 0.80⟩

/-- config/models.py `ProcessingConfig` dataclass (fields the engine reads). -/
structure ProcessingConfig where
  maxEmailLength : ℕ
  maxSubjectLength : ℕ
  enableEmotionModel : Bool
  enableBertModel : Bool

/-- Default `ProcessingConfig` values. -/
def ProcessingConfig.default : ProcessingConfig :=
  ⟨5000, 200, true, true⟩

/-- config/models.py `ClassifierConfig` (groups the engine reads). -/
structure ClassifierConfig where
  urgency : UrgencyThresholds
  processing : ProcessingConfig
  weights : PatternWeights
  version : String

/-- `ClassifierConfig.default()`. -/
def ClassifierConfig.default : ClassifierConfig :=
  ⟨UrgencyThresholds.default, ProcessingConfig.default, PatternWeights.default, "2.0"⟩

/-- One entry of `PatternManager.urgency_patterns`: the two rule lists plus the
threshold and confidence ceiling copied from configuration. -/
structure UrgencyPatternEntry where
  corePatterns : List Rule
  secondaryPatterns : List Rule
  threshold : ℚ
  maxConfidence : ℚ

/-- The full urgency pattern registry (one entry per level). -/
structure UrgencyPatterns where
  critical : UrgencyPatternEntry
  high : UrgencyPatternEntry
  medium : UrgencyPatternEntry
  low : UrgencyPatternEntry

/-- Registry lookup `urgency_patterns[level]`. -/
def UrgencyPatterns.get (p : UrgencyPatterns) : Urgency → UrgencyPatternEntry
| Urgency.critical => p.critical
| Urgency.high => p.high
| Urgency.medium => p.medium
| Urgency.low => p.low

/-- The eight urgency rule lists of `_build_urgency_patterns` (the concrete
regexes, abstracted as `Rule`s). -/
structure UrgencyRules where
  criticalCore : List Rule
  criticalSecondary : List Rule
  highCore : List Rule
  highSecondary : List Rule
  mediumCore : List Rule
  mediumSecondary : List Rule
  lowCore : List Rule
  lowSecondary : List Rule

/-- PatternManager._build_urgency_patterns: attach the configured thresholds
and confidence ceilings to the rule lists. -/
def buildUrgencyPatterns (cfg : ClassifierConfig) (r : UrgencyRules) : UrgencyPatterns :=
  ⟨⟨r.criticalCore, r.criticalSecondary, cfg.urgency.criticalThreshold, cfg.urgency.criticalMaxConfidence⟩,
   ⟨r.highCore, r.highSecondary, cfg.urgency.highThreshold, cfg.urgency.highMaxConfidence⟩,
   ⟨r.mediumCore, r.mediumSecondary, cfg.urgency.mediumThreshold, cfg.urgency.mediumMaxConfidence⟩,
   ⟨r.lowCore, r.lowSecondary, cfg.urgency.lowThreshold, cfg.urgency.lowMaxConfidence⟩⟩

/-- PatternManager.extract_text_features.  `positiveCount` abstracts the fixed
regex count applied to the lowered text for the `low` level. -/
def extractTextFeatures (w : PatternWeights) (positiveCount : String → ℕ)
    (text : String) : Urgency → ℚ
| Urgency.critical =>
    (countUpper text : ℚ) / (max text.length 1 : ℕ) * w.capsRatioWeight
      + (countChar text '!' : ℚ) * w.exclamationWeight
| Urgency.low => (positiveCount (strLower text) : ℚ) * w.positiveWordsWeight
| _ => 0

/-- Per-level score map (the `urgency_scores` dict; the key set is fixed). -/
structure UrgencyScores where
  critical : ℚ
  high : ℚ
  medium : ℚ
  low : ℚ
deriving DecidableEq

/-- Dict lookup `urgency_scores[level]`. -/
def UrgencyScores.get (s : UrgencyScores) : Urgency → ℚ
| Urgency.critical => s.critical
| Urgency.high => s.high
| Urgency.medium => s.medium
| Urgency.low => s.low

/-- All four scores are exactly zero
(`all(score == 0 for score in urgency_scores.values())`). -/
def UrgencyScores.allZero (s : UrgencyScores) : Prop :=
  s.critical = 0 ∧ s.high = 0 ∧ s.medium = 0 ∧ s.low = 0

instance (s : UrgencyScores) : Decidable s.allZero := by
  unfold UrgencyScores.allZero; infer_instance

/-- All four scores are nonnegative (invariant of the scores produced by
`UrgencyClassifier.classify`, which clamps with `max(0, score)`). -/
def UrgencyScores.nonneg (s : UrgencyScores) : Prop :=
  0 ≤ s.critical ∧ 0 ≤ s.high ∧ 0 ≤ s.medium ∧ 0 ≤ s.low

/-- Python `max(urgency_scores, key=urgency_scores.get)`: the first key in
insertion order `critical, high, medium, low` attaining the maximum. -/
def urgencyArgmax (s : UrgencyScores) : Urgency :=
  if s.critical ≥ s.high ∧ s.critical ≥ s.medium ∧ s.critical ≥ s.low then Urgency.critical
  else if s.high ≥ s.medium ∧ s.high ≥ s.low then Urgency.high
  else if s.medium ≥ s.low then Urgency.medium
  else Urgency.low

/-- Python `max(urgency_scores.values())`. -/
def UrgencyScores.maxScore (s : UrgencyScores) : ℚ :=
  max (max s.critical s.high) (max s.medium s.low)

/-- UrgencyClassifier._determine_final_urgency. -/
def determineFinalUrgency (pats : UrgencyPatterns) (s : UrgencyScores) : Urgency × ℚ :=
  if s.allZero then (Urgency.medium, 0.6)
  else if s.critical ≥ pats.critical.threshold then
    (Urgency.critical,
      min pats.critical.maxConfidence (0.5 + s.critical / (pats.critical.threshold * 2) * 0.4))
  else if s.high ≥ pats.high.threshold then
    (Urgency.high,
      min pats.high.maxConfidence (0.5 + s.high / (pats.high.threshold * 2) * 0.4))
  else if s.medium ≥ pats.medium.threshold then
    (Urgency.medium,
      min pats.medium.maxConfidence (0.5 + s.medium / (pats.medium.threshold * 2) * 0.4))
  else if s.low ≥ pats.low.threshold then
    (Urgency.low,
      min pats.low.maxConfidence (0.5 + s.low / (pats.low.threshold * 2) * 0.4))
  else
    let pred := urgencyArgmax s
    (pred, min 0.85 (0.5 + s.get pred / s.maxScore * 0.35))

/-- Emotion score mapping extracted from the emotion model output
(`emotion_scores.get(label, 0)` for the three labels the engine reads). -/
structure EmotionScores where
  joy : ℚ
  anger : ℚ
  fear : ℚ

/-- UrgencyClassifier._apply_emotion_analysis, given the usable emotion-score
mapping (`none` when the model call returned no usable result, which leaves
the scores untouched). -/
def applyEmotionAnalysis (s : UrgencyScores) : Option EmotionScores → UrgencyScores
| none => s
| some e =>
    let s1 :=
      if e.joy > 0.6 then
        { s with low := s.low * (1 + e.joy), critical := s.critical * (1 - e.joy * 0.5) }
      else s
    if e.anger > 0.5 ∨ e.fear > 0.5 then
      { s1 with high := s1.high * 1.3, critical := s1.critical * 1.2 }
    else s1

/-- One entry of `PatternManager.department_patterns`. -/
structure DeptPatternEntry where
  patterns : List Rule
  contextWords : List String
  confidenceBoost : ℚ

/-- The full department pattern registry (one entry per department). -/
structure DeptPatterns where
  technical : DeptPatternEntry
  billing : DeptPatternEntry
  sales : DeptPatternEntry
  support : DeptPatternEntry

/-- Registry lookup `department_patterns[dept]`. -/
def DeptPatterns.get (p : DeptPatterns) : Dept → DeptPatternEntry
| Dept.technical => p.technical
| Dept.billing => p.billing
| Dept.sales => p.sales
| Dept.support => p.support

/-- The four department rule lists of `_build_department_patterns`
(the concrete regexes, abstracted as `Rule`s). -/
structure DeptRules where
  technical : List Rule
  billing : List Rule
  sales : List Rule
  support : List Rule

/-- PatternManager._build_department_patterns: the context-booster words and
booster multipliers are hardcoded in the source. -/
def buildDeptPatterns (r : DeptRules) : DeptPatterns :=
  ⟨⟨r.technical, ["technical", "dev", "engineering", "IT"], 1.2⟩,
   ⟨r.billing, ["finance", "accounting", "billing"], 1.3⟩,
   ⟨r.sales, ["sales", "business", "commercial"], 1.2⟩,
   ⟨r.support, ["support", "help", "customer"], 1.1⟩⟩

/-- The context-booster loop of `DepartmentClassifier.classify`: for each
context word contained in the full text, multiply the score by the booster. -/
def applyBoosts (fullText : String) (words : List String) (boost : ℚ) (score : ℚ) : ℚ :=
  words.foldl (fun sc w => if strContains fullText w then sc * boost else sc) score

/-- Per-department score map (the `dept_scores` dict; the key set is fixed). -/
structure DeptScores where
  technical : ℚ
  billing : ℚ
  sales : ℚ
  support : ℚ
deriving DecidableEq

/-- Dict lookup `dept_scores[dept]`. -/
def DeptScores.get (s : DeptScores) : Dept → ℚ
| Dept.technical => s.technical
| Dept.billing => s.billing
| Dept.sales => s.sales
| Dept.support => s.support

/-- Dict update `dept_scores[dept] += x`. -/
def DeptScores.add (s : DeptScores) : Dept → ℚ → DeptScores
| Dept.technical, x => { s with technical := s.technical + x }
| Dept.billing, x => { s with billing := s.billing + x }
| Dept.sales, x => { s with sales := s.sales + x }
| Dept.support, x => { s with support := s.support + x }

/-- All four department scores are exactly zero. -/
def DeptScores.allZero (s : DeptScores) : Prop :=
  s.technical = 0 ∧ s.billing = 0 ∧ s.sales = 0 ∧ s.support = 0

instance (s : DeptScores) : Decidable s.allZero := by
  unfold DeptScores.allZero; infer_instance

/-- All four department scores are nonnegative. -/
def DeptScores.nonneg (s : DeptScores) : Prop :=
  0 ≤ s.technical ∧ 0 ≤ s.billing ∧ 0 ≤ s.sales ∧ 0 ≤ s.support

/-- Python `max(dept_scores, key=dept_scores.get)`: first key in insertion
order `technical, billing, sales, support` attaining the maximum. -/
def deptArgmax (s : DeptScores) : Dept :=
  if s.technical ≥ s.billing ∧ s.technical ≥ s.sales ∧ s.technical ≥ s.support then Dept.technical
  else if s.billing ≥ s.sales ∧ s.billing ≥ s.support then Dept.billing
  else if s.sales ≥ s.support then Dept.sales
  else Dept.support

/-- Python `max(dept_scores.values())`. -/
def DeptScores.maxScore (s : DeptScores) : ℚ :=
  max (max s.technical s.billing) (max s.sales s.support)

/-- Python `sorted(dept_scores.values(), reverse=True)` (descending sort of the
four values, in dict insertion order). -/
def sortedScoresDesc (s : DeptScores) : List ℚ :=
  List.insertionSort (fun a b => b ≤ a) [s.technical, s.billing, s.sales, s.support]

/-- DepartmentClassifier._determine_final_department. -/
def determineFinalDepartment (s : DeptScores) : Dept × ℚ :=
  if s.allZero then (Dept.support, 0.7)
  else
    let pred := deptArgmax s
    let vals := sortedScoresDesc s
    let v0 := vals.getD 0 0
    let v1 := vals.getD 1 0
    let conf :=
      if 1 < vals.length ∧ 0 < v1 then 0.6 + (v0 - v1) / v0 * 0.35
      else if 3 ≤ v0 then 0.85 else 0.75
    (pred, min 0.95 conf)

/-- Zero-shot classifier output the engine reads: the top label and its score
(`bert_result['labels'][0]`, `bert_result['scores'][0]`). -/
structure BertResult where
  label : String
  score : ℚ

/-- The `label_mapping.get(..., 'support')` lookup of `_apply_bert_validation`. -/
def labelMapping (label : String) : Dept :=
  if label = "technical support" then Dept.technical
  else if label = "billing payment" then Dept.billing
  else if label = "sales business" then Dept.sales
  else Dept.support

/-- DepartmentClassifier._apply_bert_validation, given the usable zero-shot
result (`none` when the model call returned no usable result). -/
def applyBertValidation (s : DeptScores) : Option BertResult → DeptScores
| none => s
| some r => if r.score > 0.7 then s.add (labelMapping r.label) 2 else s

/-- Mutable per-provider state of `ModelManager` (availability flags and the
monotone failure counters). -/
structure ModelState where
  workingSentiment : Bool
  workingEmotion : Bool
  workingBert : Bool
  failSentiment : ℕ
  failEmotion : ℕ
  failBert : ℕ
deriving DecidableEq

/-- Fresh `ModelManager` state (constructor of `ModelManager`). -/
def initialModelState : ModelState := ⟨false, false, false, 0, 0, 0⟩

/-- Behaviour of one optional provider invocation: the model object is absent
(`if not model: return None`), the call raises (caught, failure counter
incremented, `None` returned), or the call returns — with `none` standing for
a falsy or structurally unusable result that the caller skips. -/
inductive ProviderBehaviour (α : Type)
| absent
| callFails
| result (r : Option α)

/-- ModelManager.safe_model_call for the emotion model: state threading of the
per-provider failure counter. -/
def safeEmotionCall (st : ModelState) :
    ProviderBehaviour EmotionScores → Option EmotionScores × ModelState
| ProviderBehaviour.absent => (none, st)
| ProviderBehaviour.callFails => (none, { st with failEmotion := st.failEmotion + 1 })
| ProviderBehaviour.result r => (r, st)

/-- ModelManager.safe_model_call for the BERT zero-shot model. -/
def safeBertCall (st : ModelState) :
    ProviderBehaviour BertResult → Option BertResult × ModelState
| ProviderBehaviour.absent => (none, st)
| ProviderBehaviour.callFails => (none, { st with failBert := st.failBert + 1 })
| ProviderBehaviour.result r => (r, st)

/-- ModelManager.get_model_health. -/
structure ModelHealth where
  workingSentiment : Bool
  workingEmotion : Bool
  workingBert : Bool
  failSentiment : ℕ
  failEmotion : ℕ
  failBert : ℕ
  modelsLoaded : ℕ
deriving DecidableEq

/-- ModelManager.get_model_health: copies of the state plus
`sum(self.working_models.values())`. -/
def getModelHealth (st : ModelState) : ModelHealth :=
  ⟨st.workingSentiment, st.workingEmotion, st.workingBert,
   st.failSentiment, st.failEmotion, st.failBert,
   (cond st.workingSentiment 1 0) + (cond st.workingEmotion 1 0) + (cond st.workingBert 1 0)⟩

/-- UrgencyClassifier.classify, score computation part: per-level pattern
score with clamping `max(0, score)`. -/
def urgencyScoresOf (cfg : ClassifierConfig) (pats : UrgencyPatterns)
    (positiveCount : String → ℕ) (text subject : String) : UrgencyScores :=
  let fullText := strLower (subject ++ " " ++ text)
  let score := fun (l : Urgency) =>
    let e := pats.get l
    max 0 (calculatePatternScore fullText e.corePatterns cfg.weights.corePatternWeight
      + calculatePatternScore fullText e.secondaryPatterns cfg.weights.secondaryPatternWeight
      + extractTextFeatures cfg.weights positiveCount text l)
  ⟨score Urgency.critical, score Urgency.high, score Urgency.medium, score Urgency.low⟩

/-- UrgencyClassifier.classify (main path; the `except` fallback is modelled at
the `classify_email` level, see `classifyEmail`). -/
def urgencyClassify (cfg : ClassifierConfig) (pats : UrgencyPatterns)
    (positiveCount : String → ℕ) (text subject : String)
    (eb : ProviderBehaviour EmotionScores) (st : ModelState) :
    (Urgency × ℚ) × ModelState :=
  let s0 := urgencyScoresOf cfg pats positiveCount text subject
  let p :=
    if cfg.processing.enableEmotionModel then
      let r := safeEmotionCall st eb
      (applyEmotionAnalysis s0 r.1, r.2)
    else (s0, st)
  (determineFinalUrgency pats p.1, p.2)

/-- DepartmentClassifier.classify, score computation part. -/
def deptScoresOf (cfg : ClassifierConfig) (pats : DeptPatterns)
    (text subject sender : String) : DeptScores :=
  let fullText := strLower (subject ++ " " ++ text ++ " " ++ sender)
  let score := fun (d : Dept) =>
    let e := pats.get d
    applyBoosts fullText e.contextWords e.confidenceBoost
      (calculatePatternScore fullText e.patterns cfg.weights.departmentSignalWeight)
  ⟨score Dept.technical, score Dept.billing, score Dept.sales, score Dept.support⟩

/-- DepartmentClassifier.classify (main path). -/
def departmentClassify (cfg : ClassifierConfig) (pats : DeptPatterns)
    (text subject sender : String)
    (bb : ProviderBehaviour BertResult) (st : ModelState) :
    (Dept × ℚ) × ModelState :=
  let s0 := deptScoresOf cfg pats text subject sender
  let p :=
    if cfg.processing.enableBertModel then
      let r := safeBertCall st bb
      (applyBertValidation s0 r.1, r.2)
    else (s0, st)
  (determineFinalDepartment p.1, p.2)

/-- Raw email record (`email_data` dict): each field may be missing (`none`)
or present; an empty string is falsy in Python and treated like missing. -/
structure EmailData where
  subject : Option String
  testoEmail : Option String
  sender : Option String

/-- Validated email fields after `InputValidator.validate_email_data` plus the
`validated_data.get('sender', '')` read in `classify_email`. -/
structure ValidatedEmail where
  subject : String
  content : String
  sender : String

/-- InputValidator.validate_email_data: default-fill missing/empty fields and
truncate to the configured maximum lengths. -/
def validateEmailData (cfg : ClassifierConfig) (d : EmailData) : ValidatedEmail :=
  let subject0 :=
    match d.subject with
    | none => "No Subject"
    | some s => if s = "" then "No Subject" else s
  let content0 :=
    match d.testoEmail with
    | none => subject0
    | some s => if s = "" then subject0 else s
  ⟨strTake subject0 cfg.processing.maxSubjectLength,
   strTake content0 cfg.processing.maxEmailLength,
   (d.sender).getD ""⟩

/-- Result of the cross-validation block of `classify_email` (lines 132-140):
the block reassigns only `urgency` and `urgency_conf`. -/
structure CrossResult where
  urgency : Urgency
  urgencyConf : ℚ
  department : Dept
  departmentConf : ℚ

/-- The `critical_keywords` list of `classify_email`. -/
def criticalKeywords : List String := ["down", "crashed", "dead", "failed"]

/-- Python `any(word in content.lower() for word in critical_keywords)`. -/
def containsAnyCritical (content : String) : Bool :=
  criticalKeywords.any (fun w => strContains (strLower content) w)

/-- The business-logic cross-validation block of `classify_email`. -/
def crossValidate (u : Urgency) (uc : ℚ) (d : Dept) (dc : ℚ) (content : String) :
    CrossResult :=
  if d = Dept.technical ∧ (u = Urgency.high ∨ u = Urgency.critical) then
    if u = Urgency.high ∧ containsAnyCritical content then
      ⟨Urgency.critical, min 0.95 (uc + 0.1), d, dc⟩
    else ⟨u, uc, d, dc⟩
  else ⟨u, uc, d, dc⟩

/-- The dictionary returned by `EmailClassifier.classify_email`: success
results carry `model_health` and no `error`, fallback results carry `error`
and no `model_health`. -/
structure ClassificationResult where
  urgency : Urgency
  urgencyConfidence : ℚ
  department : Dept
  departmentConfidence : ℚ
  overallConfidence : ℚ
  processingTime : ℚ
  modelHealth : Option ModelHealth
  error : Option String
  configVersion : String
  version : String
deriving DecidableEq

/-- EmailClassifier.classify_email.  `internalError` models the `try/except`:
`some e` means an exception with message `e` was raised inside the `try`
block, `none` the normal path.  `processingTime` models the wall-clock
duration measurement.  The `ModelManager` state is threaded explicitly. -/
def classifyEmail (cfg : ClassifierConfig) (upats : UrgencyPatterns)
    (dpats : DeptPatterns) (positiveCount : String → ℕ)
    (eb : ProviderBehaviour EmotionScores) (bb : ProviderBehaviour BertResult)
    (internalError : Option String) (processingTime : ℚ)
    (st : ModelState) (d : EmailData) : ClassificationResult × ModelState :=
  match internalError with
  | some e =>
      (⟨Urgency.medium, 0.5, Dept.support, 0.5, 0.5, processingTime,
        none, some e, cfg.version, "modular_v3.0"⟩, st)
  | none =>
      let v := validateEmailData cfg d
      let ur := urgencyClassify cfg upats positiveCount v.content v.subject eb st
      let dr := departmentClassify cfg dpats v.content v.subject v.sender bb ur.2
      let c := crossValidate ur.1.1 ur.1.2 dr.1.1 dr.1.2 v.content
      (⟨c.urgency, c.urgencyConf, c.department, c.departmentConf,
        (c.urgencyConf + c.departmentConf) / 2, processingTime,
        some (getModelHealth dr.2), none, cfg.version, "modular_v3.0"⟩, dr.2)

/-! ### Helper lemmas -/

/-- Accumulator form of `calculate_pattern_score`. -/
lemma calculatePatternScore_shift (t : String) (w : ℚ) :
    ∀ (ps : List Rule) (a : ℚ),
      ps.foldl
        (fun score p =>
          match p with
          | Rule.valid c => score + (c t : ℚ) * w
          | Rule.malformed => score) a
      = a + ((ps.map fun r => (r.matchCount t : ℚ)).sum) * w := by
  intro ps
  induction ps with
  | nil => intro a; simp
  | cons p ps ih =>
      intro a
      cases p with
      | valid c => simp [List.foldl, ih, Rule.matchCount]; ring
      | malformed => simp [List.foldl, ih, Rule.matchCount]

/-- Closed form of `calculate_pattern_score`: total match count times weight. -/
lemma calculatePatternScore_eq (t : String) (ps : List Rule) (w : ℚ) :
    calculatePatternScore t ps w = ((ps.map fun r => (r.matchCount t : ℚ)).sum) * w := by
  unfold calculatePatternScore
  rw [calculatePatternScore_shift]
  ring

/-- The score of a rule list is the sum of the per-rule contributions. -/
lemma calculatePatternScore_eq_contrib (t : String) (ps : List Rule) (w : ℚ) :
    calculatePatternScore t ps w = (ps.map fun r => (r.matchCount t : ℚ) * w).sum := by
  rw [calculatePatternScore_eq, ← List.sum_map_mul_right]

/-- A nonnegative weight yields a nonnegative pattern score. -/
lemma calculatePatternScore_nonneg (t : String) (ps : List Rule) {w : ℚ}
    (hw : 0 ≤ w) : 0 ≤ calculatePatternScore t ps w := by
  rw [calculatePatternScore_eq]
  apply mul_nonneg _ hw
  apply List.sum_nonneg
  intro x hx
  simp only [List.mem_map] at hx
  obtain ⟨r, _, rfl⟩ := hx
  positivity

/-! ### Claim C7 -/

/-- Claim C7: for every text, rule list and weight the scoring primitive
totally returns a score equal to the sum over rules of
`matchCount * weight`, which equals the total match count multiplied by the
weight; a malformed rule is skipped and contributes zero. -/
theorem claim_C7_pattern_score (t : String) (ps : List Rule) (w : ℚ) :
    calculatePatternScore t ps w = (ps.map fun r => (r.matchCount t : ℚ) * w).sum ∧
    calculatePatternScore t ps w = ((ps.map fun r => (r.matchCount t : ℚ)).sum) * w ∧
    calculatePatternScore t (Rule.malformed :: ps) w = calculatePatternScore t ps w := by
  refine ⟨calculatePatternScore_eq_contrib t ps w, calculatePatternScore_eq t ps w, ?_⟩
  rw [calculatePatternScore_eq, calculatePatternScore_eq]
  simp [Rule.matchCount]

/-! ### Claim C8 -/

/-- Claim C8: the emotion adjustment multiplies `low` by `(1 + joy)` and
`critical` by `(1 - joy*0.5)` exactly when `joy > 0.6`, multiplies `high` by
`1.3` and `critical` by `1.2` exactly when `anger > 0.5` or `fear > 0.5`, and
leaves every score unchanged when the provider is absent or its call fails
(returns no usable result); classification proceeds in those cases on the
unmodified scores. -/
theorem claim_C8_emotion_adjustment (s : UrgencyScores) (e : EmotionScores)
    (st : ModelState) :
    applyEmotionAnalysis s (some e) =
      ⟨(if e.joy > 0.6 then s.critical * (1 - e.joy * 0.5) else s.critical) *
          (if e.anger > 0.5 ∨ e.fear > 0.5 then 1.2 else 1),
        (if e.anger > 0.5 ∨ e.fear > 0.5 then s.high * 1.3 else s.high),
        s.medium,
        (if e.joy > 0.6 then s.low * (1 + e.joy) else s.low)⟩ ∧
    applyEmotionAnalysis s none = s ∧
    safeEmotionCall st ProviderBehaviour.absent = (none, st) ∧
    safeEmotionCall st ProviderBehaviour.callFails =
      (none, { st with failEmotion := st.failEmotion + 1 }) ∧
    (∀ (cfg : ClassifierConfig) (pats : UrgencyPatterns) (pc : String → ℕ)
        (text subj : String),
      (urgencyClassify cfg pats pc text subj ProviderBehaviour.absent st).1 =
        determineFinalUrgency pats (urgencyScoresOf cfg pats pc text subj) ∧
      (urgencyClassify cfg pats pc text subj ProviderBehaviour.callFails st).1 =
        determineFinalUrgency pats (urgencyScoresOf cfg pats pc text subj)) := by
  refine ⟨?_, rfl, rfl, rfl, ?_⟩
  · by_cases hj : e.joy > 0.6 <;> by_cases haf : e.anger > 0.5 ∨ e.fear > 0.5 <;>
      simp [applyEmotionAnalysis, hj, haf, mul_one]
  · intro cfg pats pc text subj
    constructor <;>
      · unfold urgencyClassify safeEmotionCall
        cases hb : cfg.processing.enableEmotionModel <;>
          simp [hb, applyEmotionAnalysis]

/-- The first-maximum tie-break of Python `max(dict, key=dict.get)` indeed
attains the maximum score. -/
lemma urgencyArgmax_get (s : UrgencyScores) : s.get (urgencyArgmax s) = s.maxScore := by
  unfold urgencyArgmax
  split_ifs with h1 h2 h3
  · obtain ⟨a, b, c⟩ := h1
    simp only [UrgencyScores.get, UrgencyScores.maxScore]
    rw [max_eq_left a, max_eq_left (max_le b c)]
  · have hch : s.critical ≤ s.high := by
      rcases not_and_or.mp h1 with h | h
      · exact (not_le.mp h).le
      · rcases not_and_or.mp h with h | h
        · have := not_le.mp h; linarith [h2.1]
        · have := not_le.mp h; linarith [h2.2]
    simp only [UrgencyScores.get, UrgencyScores.maxScore]
    rw [max_eq_right hch, max_eq_left (max_le h2.1 h2.2)]
  · have hhm : s.high ≤ s.medium := by
      rcases not_and_or.mp h2 with h | h
      · exact (not_le.mp h).le
      · have := not_le.mp h; linarith [h3]
    have hcm : s.critical ≤ s.medium := by
      rcases not_and_or.mp h1 with h | h
      · have := not_le.mp h; linarith
      · rcases not_and_or.mp h with h | h
        · exact (not_le.mp h).le
        · have := not_le.mp h; linarith [h3]
    simp only [UrgencyScores.get, UrgencyScores.maxScore]
    rw [max_eq_left h3, max_eq_right (max_le hcm hhm)]
  · have hml : s.medium ≤ s.low := (not_le.mp h3).le
    have hhl : s.high ≤ s.low := by
      rcases not_and_or.mp h2 with h | h
      · have := not_le.mp h; linarith
      · exact (not_le.mp h).le
    have hcl : s.critical ≤ s.low := by
      rcases not_and_or.mp h1 with h | h
      · have := not_le.mp h; linarith
      · rcases not_and_or.mp h with h | h
        · have := not_le.mp h; linarith
        · exact (not_le.mp h).le
    simp only [UrgencyScores.get, UrgencyScores.maxScore]
    rw [max_eq_right hml, max_eq_right (max_le hcl hhl)]

/-- A nonnegative, not-all-zero score map has a strictly positive maximum. -/
lemma urgencyMaxScore_pos (s : UrgencyScores) (hn : s.nonneg) (hz : ¬ s.allZero) :
    0 < s.maxScore := by
  obtain ⟨h1, h2, h3, h4⟩ := hn
  by_contra h
  push_neg at h
  apply hz
  have c1 : s.critical ≤ s.maxScore := (le_max_left _ _).trans (le_max_left _ _)
  have c2 : s.high ≤ s.maxScore := (le_max_right _ _).trans (le_max_left _ _)
  have c3 : s.medium ≤ s.maxScore := (le_max_left _ _).trans (le_max_right _ _)
  have c4 : s.low ≤ s.maxScore := (le_max_right _ _).trans (le_max_right _ _)
  exact ⟨le_antisymm (c1.trans h) h1, le_antisymm (c2.trans h) h2,
    le_antisymm (c3.trans h) h3, le_antisymm (c4.trans h) h4⟩

/-- Normal form of the no-threshold-reached branch of
`_determine_final_urgency`. -/
lemma determineFinalUrgency_fallback (pats : UrgencyPatterns) (s : UrgencyScores)
    (hz : ¬ s.allZero)
    (h1 : s.critical < pats.critical.threshold) (h2 : s.high < pats.high.threshold)
    (h3 : s.medium < pats.medium.threshold) (h4 : s.low < pats.low.threshold) :
    determineFinalUrgency pats s =
      (urgencyArgmax s, min 0.85 (0.5 + s.get (urgencyArgmax s) / s.maxScore * 0.35)) := by
  unfold determineFinalUrgency
  rw [if_neg hz, if_neg (not_le.mpr h1), if_neg (not_le.mpr h2),
    if_neg (not_le.mpr h3), if_neg (not_le.mpr h4)]

/-- An empty rule registry for the urgency side (used to instantiate the
abstract rule lists in concrete examples). -/
def emptyUrgencyRules : UrgencyRules := ⟨[], [], [], [], [], [], [], []⟩

/-- An empty rule registry for the department side. -/
def emptyDeptRules : DeptRules := ⟨[], [], [], []⟩

/-! ### Claim C3 -/

/-- Claim C3: the urgency decision function returns `(medium, 0.6)` on an
all-zero score map; otherwise it tests the levels in the fixed order
critical, high, medium, low and returns the first level whose score reaches
its configured threshold, with confidence
`min(ceiling, 0.5 + score/(threshold*2) * 0.4)`; if no level reaches its
threshold it returns a level attaining the maximum score, with confidence
exactly `0.85` (the score map being nonnegative and not all zero). -/
theorem claim_C3_urgency_decision (pats : UrgencyPatterns) (s : UrgencyScores) :
    (s.allZero → determineFinalUrgency pats s = (Urgency.medium, 0.6)) ∧
    (¬ s.allZero → pats.critical.threshold ≤ s.critical →
      determineFinalUrgency pats s =
        (Urgency.critical, min pats.critical.maxConfidence
          (0.5 + s.critical / (pats.critical.threshold * 2) * 0.4))) ∧
    (¬ s.allZero → s.critical < pats.critical.threshold →
      pats.high.threshold ≤ s.high →
      determineFinalUrgency pats s =
        (Urgency.high, min pats.high.maxConfidence
          (0.5 + s.high / (pats.high.threshold * 2) * 0.4))) ∧
    (¬ s.allZero → s.critical < pats.critical.threshold →
      s.high < pats.high.threshold → pats.medium.threshold ≤ s.medium →
      determineFinalUrgency pats s =
        (Urgency.medium, min pats.medium.maxConfidence
          (0.5 + s.medium / (pats.medium.threshold * 2) * 0.4))) ∧
    (¬ s.allZero → s.critical < pats.critical.threshold →
      s.high < pats.high.threshold → s.medium < pats.medium.threshold →
      pats.low.threshold ≤ s.low →
      determineFinalUrgency pats s =
        (Urgency.low, min pats.low.maxConfidence
          (0.5 + s.low / (pats.low.threshold * 2) * 0.4))) ∧
    (s.nonneg → ¬ s.allZero →
      s.critical < pats.critical.threshold → s.high < pats.high.threshold →
      s.medium < pats.medium.threshold → s.low < pats.low.threshold →
      s.get (determineFinalUrgency pats s).1 = s.maxScore ∧
      (determineFinalUrgency pats s).2 = 0.85) := by
  refine ⟨?_, ?_, ?_, ?_, ?_, ?_⟩
  · intro hz
    unfold determineFinalUrgency
    rw [if_pos hz]
  · intro hz h
    unfold determineFinalUrgency
    rw [if_neg hz, if_pos h]
  · intro hz h1 h
    unfold determineFinalUrgency
    rw [if_neg hz, if_neg (not_le.mpr h1), if_pos h]
  · intro hz h1 h2 h
    unfold determineFinalUrgency
    rw [if_neg hz, if_neg (not_le.mpr h1), if_neg (not_le.mpr h2), if_pos h]
  · intro hz h1 h2 h3 h
    unfold determineFinalUrgency
    rw [if_neg hz, if_neg (not_le.mpr h1), if_neg (not_le.mpr h2),
      if_neg (not_le.mpr h3), if_pos h]
  · intro hn hz h1 h2 h3 h4
    rw [determineFinalUrgency_fallback pats s hz h1 h2 h3 h4]
    refine ⟨urgencyArgmax_get s, ?_⟩
    have hpos := urgencyMaxScore_pos s hn hz
    simp only
    rw [urgencyArgmax_get, div_self (ne_of_gt hpos)]
    norm_num

/-- Claim C3 witness: concrete instantiations of the conditional parts. -/
theorem claim_C3_urgency_decision_witness :
    determineFinalUrgency
        (buildUrgencyPatterns ClassifierConfig.default emptyUrgencyRules)
        ⟨0, 0, 0, 0⟩ = (Urgency.medium, 0.6) ∧
    determineFinalUrgency
        (buildUrgencyPatterns ClassifierConfig.default emptyUrgencyRules)
        ⟨5, 0, 0, 0⟩ = (Urgency.critical, min 0.95 (0.5 + 5 / (4 * 2) * 0.4)) ∧
    (⟨2, 0, 0, 0⟩ : UrgencyScores).get
        (determineFinalUrgency
          (buildUrgencyPatterns ClassifierConfig.default emptyUrgencyRules)
          ⟨2, 0, 0, 0⟩).1 = (⟨2, 0, 0, 0⟩ : UrgencyScores).maxScore ∧
    (determineFinalUrgency
        (buildUrgencyPatterns ClassifierConfig.default emptyUrgencyRules)
        ⟨2, 0, 0, 0⟩).2 = 0.85 := by
  obtain ⟨a1, a2, -, -, -, -⟩ :=
    claim_C3_urgency_decision
      (buildUrgencyPatterns ClassifierConfig.default emptyUrgencyRules) ⟨0, 0, 0, 0⟩
  obtain ⟨-, b2, -, -, -, -⟩ :=
    claim_C3_urgency_decision
      (buildUrgencyPatterns ClassifierConfig.default emptyUrgencyRules) ⟨5, 0, 0, 0⟩
  obtain ⟨-, -, -, -, -, c6⟩ :=
    claim_C3_urgency_decision
      (buildUrgencyPatterns ClassifierConfig.default emptyUrgencyRules) ⟨2, 0, 0, 0⟩
  refine ⟨?_, ?_, ?_⟩
  · exact a1 (by norm_num [UrgencyScores.allZero])
  · have := b2 (by norm_num [UrgencyScores.allZero])
      (by norm_num [buildUrgencyPatterns, ClassifierConfig.default, UrgencyThresholds.default])
    simpa [buildUrgencyPatterns, ClassifierConfig.default, UrgencyThresholds.default]
      using this
  · exact c6 (by norm_num [UrgencyScores.nonneg]) (by norm_num [UrgencyScores.allZero])
      (by norm_num [buildUrgencyPatterns, ClassifierConfig.default, UrgencyThresholds.default])
      (by norm_num [buildUrgencyPatterns, ClassifierConfig.default, UrgencyThresholds.default])
      (by norm_num [buildUrgencyPatterns, ClassifierConfig.default, UrgencyThresholds.default])
      (by norm_num [buildUrgencyPatterns, ClassifierConfig.default, UrgencyThresholds.default])

/-! ### Claim C2 -/

/-- Claim C2 counterexample: under the default configuration (critical
threshold 4, core pattern weight 2, so one core match short of the threshold
gives critical score 2) a score map whose critical score is strictly below
the critical threshold, all other scores zero, is still classified as
`critical` by the max-score fallback branch — refuting the second half of the
claim. -/
theorem claim_C2_counterexample :
    (⟨2, 0, 0, 0⟩ : UrgencyScores).critical <
      (buildUrgencyPatterns ClassifierConfig.default emptyUrgencyRules).critical.threshold ∧
    (determineFinalUrgency
        (buildUrgencyPatterns ClassifierConfig.default emptyUrgencyRules)
        ⟨2, 0, 0, 0⟩).1 = Urgency.critical := by
  constructor
  · norm_num [buildUrgencyPatterns, ClassifierConfig.default, UrgencyThresholds.default]
  · norm_num [determineFinalUrgency, UrgencyScores.allZero, urgencyArgmax,
      buildUrgencyPatterns, ClassifierConfig.default, UrgencyThresholds.default]

/-- Claim C2 amended: with the configured default thresholds, a critical score
exactly at the critical threshold classifies as `critical`; a critical score
below the threshold does not classify as `critical` provided some other
level reaches its own threshold (otherwise the max-score fallback may still
return `critical`, see the counterexample). -/
theorem claim_C2_amended (pats : UrgencyPatterns)
    (hc : pats.critical.threshold = 4) (s : UrgencyScores) :
    (s.critical = pats.critical.threshold →
      (determineFinalUrgency pats s).1 = Urgency.critical) ∧
    (s.critical < pats.critical.threshold →
      (pats.high.threshold ≤ s.high ∨ pats.medium.threshold ≤ s.medium ∨
        pats.low.threshold ≤ s.low) →
      (determineFinalUrgency pats s).1 ≠ Urgency.critical) := by
  constructor
  · intro h
    have hz : ¬ s.allZero := by
      intro hz
      rw [hz.1, hc] at h
      norm_num at h
    unfold determineFinalUrgency
    rw [if_neg hz, if_pos (le_of_eq h.symm)]
  · intro h hsome
    by_cases hz : s.allZero
    · unfold determineFinalUrgency
      rw [if_pos hz]
      simp
    by_cases h2 : pats.high.threshold ≤ s.high
    · unfold determineFinalUrgency
      rw [if_neg hz, if_neg (not_le.mpr h), if_pos h2]
      simp
    by_cases h3 : pats.medium.threshold ≤ s.medium
    · unfold determineFinalUrgency
      rw [if_neg hz, if_neg (not_le.mpr h), if_neg h2, if_pos h3]
      simp
    by_cases h4 : pats.low.threshold ≤ s.low
    · unfold determineFinalUrgency
      rw [if_neg hz, if_neg (not_le.mpr h), if_neg h2, if_neg h3, if_pos h4]
      simp
    · rcases hsome with h' | h' | h' <;> [exact absurd h' h2; exact absurd h' h3; exact absurd h' h4]

/-- Claim C2 amended, witness: at-threshold map classifies critical; one core
match short (score 2) with the high level at its threshold does not. -/
theorem claim_C2_amended_witness :
    (determineFinalUrgency
        (buildUrgencyPatterns ClassifierConfig.default emptyUrgencyRules)
        ⟨4, 0, 0, 0⟩).1 = Urgency.critical ∧
    (determineFinalUrgency
        (buildUrgencyPatterns ClassifierConfig.default emptyUrgencyRules)
        ⟨2, 2, 0, 0⟩).1 ≠ Urgency.critical := by
  constructor
  · exact (claim_C2_amended _
      (by norm_num [buildUrgencyPatterns, ClassifierConfig.default, UrgencyThresholds.default])
      ⟨4, 0, 0, 0⟩).1
      (by norm_num [buildUrgencyPatterns, ClassifierConfig.default, UrgencyThresholds.default])
  · exact (claim_C2_amended _
      (by norm_num [buildUrgencyPatterns, ClassifierConfig.default, UrgencyThresholds.default])
      ⟨2, 2, 0, 0⟩).2
      (by norm_num [buildUrgencyPatterns, ClassifierConfig.default, UrgencyThresholds.default])
      (Or.inl (by norm_num [buildUrgencyPatterns, ClassifierConfig.default, UrgencyThresholds.default]))

/-! ### Department-side helpers -/

/-- Closed form of the context-booster loop: the score is multiplied by the
booster once per context word contained in the full text. -/
lemma applyBoosts_eq (ft : String) (boost : ℚ) :
    ∀ (ws : List String) (sc : ℚ),
      applyBoosts ft ws boost sc =
        sc * boost ^ (ws.countP (fun w => strContains ft w)) := by
  intro ws
  induction ws with
  | nil => intro sc; simp [applyBoosts]
  | cons w ws ih =>
      intro sc
      rw [show applyBoosts ft (w :: ws) boost sc =
            applyBoosts ft ws boost (if strContains ft w then sc * boost else sc) from rfl]
      cases hsc : strContains ft w with
      | true =>
          rw [if_pos (by simp [hsc]), ih (sc * boost),
            List.countP_cons_of_pos _ _ (by simpa using hsc), pow_succ]
          ring
      | false =>
          rw [if_neg (by simp [hsc]), ih sc,
            List.countP_cons_of_neg _ _ (by simp [hsc])]

instance : IsTotal ℚ (fun a b => b ≤ a) := ⟨fun a b => le_total b a⟩

instance : IsTrans ℚ (fun a b => b ≤ a) := ⟨fun _ _ _ h1 h2 => le_trans h2 h1⟩

/-- Shape, sortedness and content of
`sorted(dept_scores.values(), reverse=True)`. -/
lemma sortedScoresDesc_facts (s : DeptScores) :
    ∃ x0 x1 x2 x3, sortedScoresDesc s = [x0, x1, x2, x3] ∧
      x1 ≤ x0 ∧ x2 ≤ x1 ∧ x3 ≤ x2 ∧
      [x0, x1, x2, x3].Perm [s.technical, s.billing, s.sales, s.support] := by
  have hp : List.Perm (sortedScoresDesc s)
      [s.technical, s.billing, s.sales, s.support] :=
    List.perm_insertionSort _ _
  have hs : List.Sorted (fun a b => b ≤ a) (sortedScoresDesc s) :=
    List.sorted_insertionSort _ _
  have hl : (sortedScoresDesc s).length = 4 := by
    rw [hp.length_eq]; rfl
  obtain ⟨x0, x1, x2, x3, rest, he⟩ :
      ∃ x0 x1 x2 x3 rest, sortedScoresDesc s = x0 :: x1 :: x2 :: x3 :: rest := by
    rcases e : sortedScoresDesc s with _ | ⟨a, _ | ⟨b, _ | ⟨c, _ | ⟨d, r⟩⟩⟩⟩ <;>
      rw [e] at hl <;> simp at hl
    exact ⟨a, b, c, d, r, rfl⟩
  have hrest : rest = [] := by
    rw [he] at hl
    simpa using hl
  subst hrest
  rw [he] at hp hs
  simp only [List.sorted_cons] at hs
  refine ⟨x0, x1, x2, x3, he, ?_, ?_, ?_, hp⟩
  · exact hs.1 x1 (by simp)
  · exact hs.2.1 x2 (by simp)
  · exact hs.2.2.1 x3 (by simp)

/-- The first-maximum tie-break of the department decision attains the
maximum score. -/
lemma deptArgmax_get (s : DeptScores) : s.get (deptArgmax s) = s.maxScore := by
  unfold deptArgmax
  split_ifs with h1 h2 h3
  · obtain ⟨a, b, c⟩ := h1
    simp only [DeptScores.get, DeptScores.maxScore]
    rw [max_eq_left a, max_eq_left (max_le b c)]
  · have hch : s.technical ≤ s.billing := by
      rcases not_and_or.mp h1 with h | h
      · exact (not_le.mp h).le
      · rcases not_and_or.mp h with h | h
        · have := not_le.mp h; linarith [h2.1]
        · have := not_le.mp h; linarith [h2.2]
    simp only [DeptScores.get, DeptScores.maxScore]
    rw [max_eq_right hch, max_eq_left (max_le h2.1 h2.2)]
  · have hhm : s.billing ≤ s.sales := by
      rcases not_and_or.mp h2 with h | h
      · exact (not_le.mp h).le
      · have := not_le.mp h; linarith [h3]
    have hcm : s.technical ≤ s.sales := by
      rcases not_and_or.mp h1 with h | h
      · have := not_le.mp h; linarith
      · rcases not_and_or.mp h with h | h
        · exact (not_le.mp h).le
        · have := not_le.mp h; linarith [h3]
    simp only [DeptScores.get, DeptScores.maxScore]
    rw [max_eq_left h3, max_eq_right (max_le hcm hhm)]
  · have hml : s.sales ≤ s.support := (not_le.mp h3).le
    have hhl : s.billing ≤ s.support := by
      rcases not_and_or.mp h2 with h | h
      · have := not_le.mp h; linarith
      · exact (not_le.mp h).le
    have hcl : s.technical ≤ s.support := by
      rcases not_and_or.mp h1 with h | h
      · have := not_le.mp h; linarith
      · rcases not_and_or.mp h with h | h
        · have := not_le.mp h; linarith
        · exact (not_le.mp h).le
    simp only [DeptScores.get, DeptScores.maxScore]
    rw [max_eq_right hml, max_eq_right (max_le hcl hhl)]

/-- The head of the descending sort is the maximum of the four scores. -/
lemma sortedScoresDesc_head (s : DeptScores) :
    (sortedScoresDesc s).getD 0 0 = s.maxScore := by
  obtain ⟨x0, x1, x2, x3, he, s01, s12, s23, hp⟩ := sortedScoresDesc_facts s
  rw [he]
  simp only [List.getD]
  have hx0mem : x0 ∈ [s.technical, s.billing, s.sales, s.support] :=
    hp.subset (by simp)
  have hle : ∀ y ∈ [s.technical, s.billing, s.sales, s.support], y ≤ x0 := by
    intro y hy
    have : y ∈ [x0, x1, x2, x3] := hp.symm.subset hy
    simp only [List.mem_cons, List.mem_singleton] at this
    rcases this with rfl | rfl | rfl | h
    · exact le_refl _
    · exact s01
    · exact s12.trans s01
    · simp only [List.not_mem_nil, List.mem_cons, List.mem_singleton] at h
      rcases h with rfl | h
      · exact (s23.trans s12).trans s01
      · simp at h
  apply le_antisymm
  · simp only [List.mem_cons, List.mem_singleton] at hx0mem
    rcases hx0mem with rfl | rfl | rfl | h
    · exact (le_max_left _ _).trans (le_max_left _ _)
    · exact (le_max_right _ _).trans (le_max_left _ _)
    · exact (le_max_left _ _).trans (le_max_right _ _)
    · simp only [List.not_mem_nil, List.mem_cons, List.mem_singleton] at h
      rcases h with rfl | h
      · exact (le_max_right _ _).trans (le_max_right _ _)
      · simp at h
  · exact max_le (max_le (hle _ (by simp)) (hle _ (by simp)))
      (max_le (hle _ (by simp)) (hle _ (by simp)))

/-! ### Claim C4 -/

/-- Claim C4: each department's score is the weighted sum of its rule matches
(weight = `department_signal_weight`) multiplied once by the department's
booster for each context word contained in the concatenated lowered text; an
all-zero score map yields `(support, 0.7)`; otherwise the returned department
attains the maximum score and the confidence is
`min(0.95, 0.6 + (best - second)/best * 0.35)` when the second-best score is
nonzero, else `0.85` when the best score is at least 3, else `0.75`; and with
the zero-shot provider absent the decision applies to exactly these scores. -/
theorem claim_C4_department_decision :
    (∀ (cfg : ClassifierConfig) (r : DeptRules) (text subject sender : String) (d : Dept),
      (deptScoresOf cfg (buildDeptPatterns r) text subject sender).get d =
        ((((buildDeptPatterns r).get d).patterns.map
            (fun ru => (ru.matchCount (strLower (subject ++ " " ++ text ++ " " ++ sender)) : ℚ))).sum
          * cfg.weights.departmentSignalWeight)
          * ((buildDeptPatterns r).get d).confidenceBoost ^
              (((buildDeptPatterns r).get d).contextWords.countP
                (fun w => strContains (strLower (subject ++ " " ++ text ++ " " ++ sender)) w))) ∧
    (∀ s : DeptScores, s.allZero → determineFinalDepartment s = (Dept.support, 0.7)) ∧
    (∀ s : DeptScores, ¬ s.allZero →
      s.get (determineFinalDepartment s).1 = s.maxScore ∧
      (sortedScoresDesc s).getD 1 0 ≤ s.maxScore ∧
      (determineFinalDepartment s).2 =
        (if 0 < (sortedScoresDesc s).getD 1 0 then
          min 0.95 (0.6 + (s.maxScore - (sortedScoresDesc s).getD 1 0) / s.maxScore * 0.35)
        else if 3 ≤ s.maxScore then 0.85 else 0.75)) ∧
    (∀ (cfg : ClassifierConfig) (pats : DeptPatterns) (text subject sender : String)
        (st : ModelState),
      (departmentClassify cfg pats text subject sender ProviderBehaviour.absent st).1 =
        determineFinalDepartment (deptScoresOf cfg pats text subject sender)) := by
  refine ⟨?_, ?_, ?_, ?_⟩
  · intro cfg r text subject sender d
    cases d <;>
      · simp only [deptScoresOf, DeptScores.get, DeptPatterns.get, buildDeptPatterns]
        rw [applyBoosts_eq, calculatePatternScore_eq]
  · intro s hz
    unfold determineFinalDepartment
    rw [if_pos hz]
  · intro s hz
    obtain ⟨x0, x1, x2, x3, he, s01, s12, s23, hp⟩ := sortedScoresDesc_facts s
    have hx0 : x0 = s.maxScore := by
      have := sortedScoresDesc_head s
      rw [he] at this
      simpa using this
    have hx1 : (sortedScoresDesc s).getD 1 0 = x1 := by rw [he]; rfl
    have heq : determineFinalDepartment s =
        (deptArgmax s,
          min 0.95 (if 1 < ([x0, x1, x2, x3] : List ℚ).length ∧ 0 < x1
            then 0.6 + (x0 - x1) / x0 * 0.35
            else if 3 ≤ x0 then 0.85 else 0.75)) := by
      unfold determineFinalDepartment
      rw [if_neg hz, he]
      rfl
    refine ⟨?_, ?_, ?_⟩
    · rw [heq]
      exact deptArgmax_get s
    · rw [hx1, ← hx0]
      exact s01
    · rw [heq, hx1]
      by_cases h1 : 0 < x1
      · rw [if_pos ⟨by simp, h1⟩, if_pos h1, hx0]
      · rw [if_neg (fun hh => h1 hh.2), if_neg h1, ← hx0]
        by_cases h2 : 3 ≤ x0
        · rw [if_pos h2]
          norm_num
        · rw [if_neg h2]
          norm_num
  · intro cfg pats text subject sender st
    unfold departmentClassify safeBertCall
    cases hb : cfg.processing.enableBertModel <;> simp [hb, applyBertValidation]

/-- Claim C4 witness: concrete instantiations of the conditional parts. -/
theorem claim_C4_department_decision_witness :
    determineFinalDepartment ⟨0, 0, 0, 0⟩ = (Dept.support, 0.7) ∧
    (⟨6, 3, 0, 0⟩ : DeptScores).get (determineFinalDepartment ⟨6, 3, 0, 0⟩).1 =
      (⟨6, 3, 0, 0⟩ : DeptScores).maxScore := by
  refine ⟨?_, ?_⟩
  · exact claim_C4_department_decision.2.1 ⟨0, 0, 0, 0⟩
      (by norm_num [DeptScores.allZero])
  · exact (claim_C4_department_decision.2.2.1 ⟨6, 3, 0, 0⟩
      (by norm_num [DeptScores.allZero])).1

/-! ### Aggregation helpers -/

/-- Case analysis of the cross-validation block: department fields pass
through unchanged, urgency is either unchanged or promoted from `high` to
`critical` with confidence `min 0.95 (uc + 0.1)`. -/
lemma crossValidate_spec (u : Urgency) (uc : ℚ) (dp : Dept) (dc : ℚ)
    (content : String) :
    (crossValidate u uc dp dc content).department = dp ∧
    (crossValidate u uc dp dc content).departmentConf = dc ∧
    (((crossValidate u uc dp dc content).urgency = u ∧
      (crossValidate u uc dp dc content).urgencyConf = uc) ∨
     (u = Urgency.high ∧
      (crossValidate u uc dp dc content).urgency = Urgency.critical ∧
      (crossValidate u uc dp dc content).urgencyConf = min 0.95 (uc + 0.1))) := by
  unfold crossValidate
  split_ifs with ha hb
  · exact ⟨rfl, rfl, Or.inr ⟨hb.1, rfl, rfl⟩⟩
  · exact ⟨rfl, rfl, Or.inl ⟨rfl, rfl⟩⟩
  · exact ⟨rfl, rfl, Or.inl ⟨rfl, rfl⟩⟩

/-- Bounds for the threshold-branch confidence formula. -/
lemma min_conf_bounds {mc x : ℚ} (hmc0 : 0 ≤ mc) (hmc1 : mc ≤ 1) (hx : 0 ≤ x) :
    0 ≤ min mc (0.5 + x * 0.4) ∧ min mc (0.5 + x * 0.4) ≤ 1 :=
  ⟨le_min hmc0 (by linarith), (min_le_left _ _).trans hmc1⟩

/-- A nonnegative score map keeps each lookup nonnegative. -/
lemma UrgencyScores.get_nonneg (s : UrgencyScores) (hs : s.nonneg) (l : Urgency) :
    0 ≤ s.get l := by
  obtain ⟨h1, h2, h3, h4⟩ := hs
  cases l <;> assumption

/-- The maximum of a nonnegative score map is nonnegative. -/
lemma UrgencyScores.maxScore_nonneg (s : UrgencyScores) (hs : s.nonneg) :
    0 ≤ s.maxScore :=
  hs.1.trans ((le_max_left _ _).trans (le_max_left _ _))

/-- Confidence bounds of the urgency decision, for a nonnegative score map and
a configuration with nonnegative thresholds and confidence ceilings in
`[0, 1]`. -/
lemma determineFinalUrgency_conf_bounds (pats : UrgencyPatterns) (s : UrgencyScores)
    (hs : s.nonneg)
    (hp : (0 ≤ pats.critical.threshold ∧ 0 ≤ pats.critical.maxConfidence ∧
            pats.critical.maxConfidence ≤ 1) ∧
          (0 ≤ pats.high.threshold ∧ 0 ≤ pats.high.maxConfidence ∧
            pats.high.maxConfidence ≤ 1) ∧
          (0 ≤ pats.medium.threshold ∧ 0 ≤ pats.medium.maxConfidence ∧
            pats.medium.maxConfidence ≤ 1) ∧
          (0 ≤ pats.low.threshold ∧ 0 ≤ pats.low.maxConfidence ∧
            pats.low.maxConfidence ≤ 1)) :
    0 ≤ (determineFinalUrgency pats s).2 ∧ (determineFinalUrgency pats s).2 ≤ 1 := by
  by_cases hz : s.allZero
  · unfold determineFinalUrgency
    rw [if_pos hz]
    norm_num
  by_cases h1 : pats.critical.threshold ≤ s.critical
  · unfold determineFinalUrgency
    rw [if_neg hz, if_pos h1]
    exact min_conf_bounds hp.1.2.1 hp.1.2.2
      (div_nonneg hs.1 (by linarith [hp.1.1]))
  by_cases h2 : pats.high.threshold ≤ s.high
  · unfold determineFinalUrgency
    rw [if_neg hz, if_neg h1, if_pos h2]
    exact min_conf_bounds hp.2.1.2.1 hp.2.1.2.2
      (div_nonneg hs.2.1 (by linarith [hp.2.1.1]))
  by_cases h3 : pats.medium.threshold ≤ s.medium
  · unfold determineFinalUrgency
    rw [if_neg hz, if_neg h1, if_neg h2, if_pos h3]
    exact min_conf_bounds hp.2.2.1.2.1 hp.2.2.1.2.2
      (div_nonneg hs.2.2.1 (by linarith [hp.2.2.1.1]))
  by_cases h4 : pats.low.threshold ≤ s.low
  · unfold determineFinalUrgency
    rw [if_neg hz, if_neg h1, if_neg h2, if_neg h3, if_pos h4]
    exact min_conf_bounds hp.2.2.2.2.1 hp.2.2.2.2.2
      (div_nonneg hs.2.2.2 (by linarith [hp.2.2.2.1]))
  · rw [determineFinalUrgency_fallback pats s hz (not_le.mp h1) (not_le.mp h2)
      (not_le.mp h3) (not_le.mp h4)]
    have hd : 0 ≤ s.get (urgencyArgmax s) / s.maxScore :=
      div_nonneg (s.get_nonneg hs _) (s.maxScore_nonneg hs)
    constructor
    · exact le_min (by norm_num) (by linarith)
    · exact (min_le_left _ _).trans (by norm_num)

/-- Confidence bounds of the department decision (no hypotheses needed: the
margin branch applies only when the second-best score is positive). -/
lemma determineFinalDepartment_conf_bounds (s : DeptScores) :
    0 ≤ (determineFinalDepartment s).2 ∧ (determineFinalDepartment s).2 ≤ 1 := by
  by_cases hz : s.allZero
  · unfold determineFinalDepartment
    rw [if_pos hz]
    norm_num
  obtain ⟨x0, x1, x2, x3, he, s01, s12, s23, hp⟩ := sortedScoresDesc_facts s
  have heq : determineFinalDepartment s =
      (deptArgmax s,
        min 0.95 (if 1 < ([x0, x1, x2, x3] : List ℚ).length ∧ 0 < x1
          then 0.6 + (x0 - x1) / x0 * 0.35
          else if 3 ≤ x0 then 0.85 else 0.75)) := by
    unfold determineFinalDepartment
    rw [if_neg hz, he]
    rfl
  rw [heq]
  by_cases h1 : 0 < x1
  · rw [if_pos ⟨by simp, h1⟩]
    have hx0 : 0 < x0 := lt_of_lt_of_le h1 s01
    have m1 : (x0 - x1) / x0 ≤ 1 := (div_le_one hx0).mpr (by linarith)
    have m0 : 0 ≤ (x0 - x1) / x0 := div_nonneg (by linarith) hx0.le
    constructor
    · exact le_min (by norm_num) (by linarith)
    · exact (min_le_left _ _).trans (by norm_num)
  · rw [if_neg (fun hh => h1 hh.2)]
    by_cases h2 : 3 ≤ x0
    · rw [if_pos h2]
      norm_num
    · rw [if_neg h2]
      norm_num

/-! ### Claim C5 -/

/-- Claim C5: when the department is `technical`, the urgency is `high` and
the lowered body contains one of the crash keywords, the cross-validation
promotes urgency to `critical` with confidence `min 0.95 (uc + 0.1)` and
leaves the department fields unchanged; and for every input the overall
confidence of `classify_email` equals the arithmetic mean of its urgency and
department confidences. -/
theorem claim_C5_cross_validation_promotion :
    (∀ (uc dc : ℚ) (content : String),
      containsAnyCritical content = true →
      crossValidate Urgency.high uc Dept.technical dc content =
        ⟨Urgency.critical, min 0.95 (uc + 0.1), Dept.technical, dc⟩) ∧
    (∀ (cfg : ClassifierConfig) (upats : UrgencyPatterns) (dpats : DeptPatterns)
        (pc : String → ℕ) (eb : ProviderBehaviour EmotionScores)
        (bb : ProviderBehaviour BertResult) (err : Option String) (t : ℚ)
        (st : ModelState) (d : EmailData),
      ((classifyEmail cfg upats dpats pc eb bb err t st d).1).overallConfidence =
        (((classifyEmail cfg upats dpats pc eb bb err t st d).1).urgencyConfidence +
          ((classifyEmail cfg upats dpats pc eb bb err t st d).1).departmentConfidence) / 2) := by
  constructor
  · intro uc dc content h
    unfold crossValidate
    rw [if_pos ⟨rfl, Or.inl rfl⟩, if_pos ⟨rfl, h⟩]
  · intro cfg upats dpats pc eb bb err t st d
    cases err with
    | some e => norm_num [classifyEmail]
    | none => rfl

/-- Claim C5 witness: concrete promotion on a body containing "down". -/
theorem claim_C5_cross_validation_promotion_witness :
    crossValidate Urgency.high 0.5 Dept.technical 0.5 "Server is down" =
      ⟨Urgency.critical, min 0.95 (0.5 + 0.1), Dept.technical, 0.5⟩ :=
  claim_C5_cross_validation_promotion.1 0.5 0.5 "Server is down" (by decide)

/-! ### Claim C6 -/

/-- Claim C6: on an internal exception, `classify_email` returns exactly the
universal fallback result (`medium`/0.5, `support`/0.5, overall 0.5) with the
error field set to the exception message; the state is untouched and the
fallback path is total. -/
theorem claim_C6_universal_fallback (cfg : ClassifierConfig)
    (upats : UrgencyPatterns) (dpats : DeptPatterns) (pc : String → ℕ)
    (eb : ProviderBehaviour EmotionScores) (bb : ProviderBehaviour BertResult)
    (e : String) (t : ℚ) (st : ModelState) (d : EmailData) :
    (classifyEmail cfg upats dpats pc eb bb (some e) t st d).1 =
      ⟨Urgency.medium, 0.5, Dept.support, 0.5, 0.5, t, none, some e,
        cfg.version, "modular_v3.0"⟩ ∧
    ((classifyEmail cfg upats dpats pc eb bb (some e) t st d).1).error.isSome = true ∧
    (classifyEmail cfg upats dpats pc eb bb (some e) t st d).2 = st :=
  ⟨rfl, rfl, rfl⟩

/-! ### Claim C10 -/

/-- Claim C10: the cross-validation step modifies only the urgency label and
urgency confidence — the department label and confidence pass through exactly
as produced by the department classifier on the validated inputs — and the
urgency label is only ever changed from `high` to `critical`. -/
theorem claim_C10_cross_validation_frame :
    (∀ (u : Urgency) (uc : ℚ) (dp : Dept) (dc : ℚ) (content : String),
      (crossValidate u uc dp dc content).department = dp ∧
      (crossValidate u uc dp dc content).departmentConf = dc ∧
      (((crossValidate u uc dp dc content).urgency = u ∧
        (crossValidate u uc dp dc content).urgencyConf = uc) ∨
       (u = Urgency.high ∧
        (crossValidate u uc dp dc content).urgency = Urgency.critical ∧
        (crossValidate u uc dp dc content).urgencyConf = min 0.95 (uc + 0.1)))) ∧
    (∀ (cfg : ClassifierConfig) (upats : UrgencyPatterns) (dpats : DeptPatterns)
        (pc : String → ℕ) (eb : ProviderBehaviour EmotionScores)
        (bb : ProviderBehaviour BertResult) (t : ℚ) (st : ModelState)
        (d : EmailData),
      let v := validateEmailData cfg d
      let ur := urgencyClassify cfg upats pc v.content v.subject eb st
      let dr := departmentClassify cfg dpats v.content v.subject v.sender bb ur.2
      ((classifyEmail cfg upats dpats pc eb bb none t st d).1).department = dr.1.1 ∧
      ((classifyEmail cfg upats dpats pc eb bb none t st d).1).departmentConfidence = dr.1.2 ∧
      ((classifyEmail cfg upats dpats pc eb bb none t st d).1).urgency =
        (crossValidate ur.1.1 ur.1.2 dr.1.1 dr.1.2 v.content).urgency ∧
      ((classifyEmail cfg upats dpats pc eb bb none t st d).1).urgencyConfidence =
        (crossValidate ur.1.1 ur.1.2 dr.1.1 dr.1.2 v.content).urgencyConf) := by
  constructor
  · intro u uc dp dc content
    exact crossValidate_spec u uc dp dc content
  · intro cfg upats dpats pc eb bb t st d
    refine ⟨?_, ?_, rfl, rfl⟩
    · exact (crossValidate_spec _ _ _ _ _).1
    · exact (crossValidate_spec _ _ _ _ _).2.1

/-! ### Claim C9 -/

/-- Claim C9 counterexample: with a failing emotion provider (identical
behaviour on both calls), two classifications of the identical email from
successive `ModelManager` states return different `model_health` fields
(failure counter 1 versus 2) while the processing-time fields agree — so the
results differ in a field other than processing time. -/
theorem claim_C9_counterexample :
    ((classifyEmail ClassifierConfig.default
        (buildUrgencyPatterns ClassifierConfig.default emptyUrgencyRules)
        (buildDeptPatterns emptyDeptRules) (fun _ => 0)
        ProviderBehaviour.callFails ProviderBehaviour.absent
        none 0
        (classifyEmail ClassifierConfig.default
          (buildUrgencyPatterns ClassifierConfig.default emptyUrgencyRules)
          (buildDeptPatterns emptyDeptRules) (fun _ => 0)
          ProviderBehaviour.callFails ProviderBehaviour.absent
          none 0 initialModelState ⟨some "hello", some "hello", none⟩).2
        ⟨some "hello", some "hello", none⟩).1).modelHealth ≠
      ((classifyEmail ClassifierConfig.default
        (buildUrgencyPatterns ClassifierConfig.default emptyUrgencyRules)
        (buildDeptPatterns emptyDeptRules) (fun _ => 0)
        ProviderBehaviour.callFails ProviderBehaviour.absent
        none 0 initialModelState ⟨some "hello", some "hello", none⟩).1).modelHealth ∧
    ((classifyEmail ClassifierConfig.default
        (buildUrgencyPatterns ClassifierConfig.default emptyUrgencyRules)
        (buildDeptPatterns emptyDeptRules) (fun _ => 0)
        ProviderBehaviour.callFails ProviderBehaviour.absent
        none 0
        (classifyEmail ClassifierConfig.default
          (buildUrgencyPatterns ClassifierConfig.default emptyUrgencyRules)
          (buildDeptPatterns emptyDeptRules) (fun _ => 0)
          ProviderBehaviour.callFails ProviderBehaviour.absent
          none 0 initialModelState ⟨some "hello", some "hello", none⟩).2
        ⟨some "hello", some "hello", none⟩).1).processingTime =
      ((classifyEmail ClassifierConfig.default
        (buildUrgencyPatterns ClassifierConfig.default emptyUrgencyRules)
        (buildDeptPatterns emptyDeptRules) (fun _ => 0)
        ProviderBehaviour.callFails ProviderBehaviour.absent
        none 0 initialModelState ⟨some "hello", some "hello", none⟩).1).processingTime := by
  constructor
  · decide
  · rfl

/-- Claim C9 amended: two classifications of the identical email under the
identical configuration and identical provider behaviour agree on every
field except the processing time and the model-health field (whose failure
counters depend on the mutable provider state). -/
theorem claim_C9_amended_determinism (cfg : ClassifierConfig)
    (upats : UrgencyPatterns) (dpats : DeptPatterns) (pc : String → ℕ)
    (eb : ProviderBehaviour EmotionScores) (bb : ProviderBehaviour BertResult)
    (err : Option String) (t1 t2 : ℚ) (st1 st2 : ModelState) (d : EmailData) :
    let r1 := (classifyEmail cfg upats dpats pc eb bb err t1 st1 d).1
    let r2 := (classifyEmail cfg upats dpats pc eb bb err t2 st2 d).1
    r1.urgency = r2.urgency ∧
    r1.urgencyConfidence = r2.urgencyConfidence ∧
    r1.department = r2.department ∧
    r1.departmentConfidence = r2.departmentConfidence ∧
    r1.overallConfidence = r2.overallConfidence ∧
    r1.error = r2.error ∧
    r1.configVersion = r2.configVersion ∧
    r1.version = r2.version := by
  cases err with
  | some e => exact ⟨rfl, rfl, rfl, rfl, rfl, rfl, rfl, rfl⟩
  | none =>
    have hu : ∀ (a b : String) (s s' : ModelState),
        (urgencyClassify cfg upats pc a b eb s).1 =
          (urgencyClassify cfg upats pc a b eb s').1 := by
      intro a b s s'
      cases eb <;> cases hflag : cfg.processing.enableEmotionModel <;>
        simp [urgencyClassify, safeEmotionCall, hflag]
    have hd : ∀ (a b c : String) (s s' : ModelState),
        (departmentClassify cfg dpats a b c bb s).1 =
          (departmentClassify cfg dpats a b c bb s').1 := by
      intro a b c s s'
      cases bb <;> cases hflag : cfg.processing.enableBertModel <;>
        simp [departmentClassify, safeBertCall, hflag]
    have hur := hu (validateEmailData cfg d).content (validateEmailData cfg d).subject st1 st2
    have hdr := hd (validateEmailData cfg d).content (validateEmailData cfg d).subject
      (validateEmailData cfg d).sender
      ((urgencyClassify cfg upats pc (validateEmailData cfg d).content
        (validateEmailData cfg d).subject eb st1).2)
      ((urgencyClassify cfg upats pc (validateEmailData cfg d).content
        (validateEmailData cfg d).subject eb st2).2)
    refine ⟨?_, ?_, ?_, ?_, ?_, ?_, ?_, ?_⟩ <;>
      simp only [classifyEmail] <;> try rw [hur, hdr]

/-! ### Claim C1 -/

/-- The clamped pattern scores are nonnegative. -/
lemma urgencyScoresOf_nonneg (cfg : ClassifierConfig) (pats : UrgencyPatterns)
    (pc : String → ℕ) (text subject : String) :
    (urgencyScoresOf cfg pats pc text subject).nonneg :=
  ⟨le_max_left 0 _, le_max_left 0 _, le_max_left 0 _, le_max_left 0 _⟩

/-- The emotion adjustment preserves nonnegativity when the joy score lies in
`[0, 1]` (the contract of the emotion provider, which returns
probabilities). -/
lemma applyEmotionAnalysis_nonneg (s : UrgencyScores) (r : Option EmotionScores)
    (hs : s.nonneg) (hr : ∀ e, r = some e → 0 ≤ e.joy ∧ e.joy ≤ 1) :
    (applyEmotionAnalysis s r).nonneg := by
  cases r with
  | none => exact hs
  | some e =>
      obtain ⟨hj0, hj1⟩ := hr e rfl
      obtain ⟨h1, h2, h3, h4⟩ := hs
      have f1 : (0 : ℚ) ≤ 1 + e.joy := by linarith
      have f2 : (0 : ℚ) ≤ 1 - e.joy * 0.5 := by linarith
      unfold applyEmotionAnalysis
      by_cases hj : e.joy > 0.6 <;> by_cases haf : e.anger > 0.5 ∨ e.fear > 0.5 <;>
        simp only [hj, haf, if_true, if_false, ite_true, ite_false] <;>
        refine ⟨?_, ?_, ?_, ?_⟩ <;>
        first
          | assumption
          | exact mul_nonneg h1 f2
          | exact mul_nonneg h4 f1
          | exact mul_nonneg (mul_nonneg h1 f2) (by norm_num)
          | exact mul_nonneg h2 (by norm_num)
          | exact mul_nonneg h1 (by norm_num)

/-- Confidence bounds of the cross-validation output. -/
lemma crossValidate_conf_bounds (u : Urgency) (uc : ℚ) (dp : Dept) (dc : ℚ)
    (content : String) (h0 : 0 ≤ uc) (h1 : uc ≤ 1) :
    0 ≤ (crossValidate u uc dp dc content).urgencyConf ∧
    (crossValidate u uc dp dc content).urgencyConf ≤ 1 := by
  rcases (crossValidate_spec u uc dp dc content).2.2 with ⟨-, hc⟩ | ⟨-, -, hc⟩
  · rw [hc]; exact ⟨h0, h1⟩
  · rw [hc]
    constructor
    · exact le_min (by norm_num) (by linarith)
    · exact (min_le_left _ _).trans (by norm_num)

/-- Claim C1: for every email record (fields possibly missing or empty),
every rule registry, every provider behaviour whose emotion results carry
joy probabilities in `[0, 1]`, and every internal-exception outcome,
`classify_email` under the default configuration totally returns a result
whose urgency and department labels belong to the fixed enumerations and
whose urgency, department and overall confidences all lie in `[0, 1]`. -/
theorem claim_C1_classify_result_valid (ur : UrgencyRules) (dr : DeptRules)
    (pc : String → ℕ) (eb : ProviderBehaviour EmotionScores)
    (bb : ProviderBehaviour BertResult) (err : Option String) (t : ℚ)
    (st : ModelState) (d : EmailData)
    (heb : ∀ e, eb = ProviderBehaviour.result (some e) → 0 ≤ e.joy ∧ e.joy ≤ 1) :
    let r := (classifyEmail ClassifierConfig.default
      (buildUrgencyPatterns ClassifierConfig.default ur) (buildDeptPatterns dr)
      pc eb bb err t st d).1
    (r.urgency = Urgency.critical ∨ r.urgency = Urgency.high ∨
      r.urgency = Urgency.medium ∨ r.urgency = Urgency.low) ∧
    (r.department = Dept.technical ∨ r.department = Dept.billing ∨
      r.department = Dept.sales ∨ r.department = Dept.support) ∧
    0 ≤ r.urgencyConfidence ∧ r.urgencyConfidence ≤ 1 ∧
    0 ≤ r.departmentConfidence ∧ r.departmentConfidence ≤ 1 ∧
    0 ≤ r.overallConfidence ∧ r.overallConfidence ≤ 1 := by
  intro r
  have henum1 : r.urgency = Urgency.critical ∨ r.urgency = Urgency.high ∨
      r.urgency = Urgency.medium ∨ r.urgency = Urgency.low := by
    cases r.urgency <;> simp
  have henum2 : r.department = Dept.technical ∨ r.department = Dept.billing ∨
      r.department = Dept.sales ∨ r.department = Dept.support := by
    cases r.department <;> simp
  cases err with
  | some e =>
      refine ⟨henum1, henum2, ?_, ?_, ?_, ?_, ?_, ?_⟩ <;> norm_num [r, classifyEmail]
  | none =>
      -- components of the success path (definitional unfoldings of `r`)
      have hr : ∀ e0, (safeEmotionCall st eb).1 = some e0 → 0 ≤ e0.joy ∧ e0.joy ≤ 1 := by
        intro e0 h
        cases eb with
        | absent => simp [safeEmotionCall] at h
        | callFails => simp [safeEmotionCall] at h
        | result r0 =>
            cases r0 with
            | none => simp [safeEmotionCall] at h
            | some e1 =>
                simp [safeEmotionCall] at h
                exact h ▸ heb e1 rfl
      have hsn : (applyEmotionAnalysis
          (urgencyScoresOf ClassifierConfig.default
            (buildUrgencyPatterns ClassifierConfig.default ur) pc
            (validateEmailData ClassifierConfig.default d).content
            (validateEmailData ClassifierConfig.default d).subject)
          (safeEmotionCall st eb).1).nonneg :=
        applyEmotionAnalysis_nonneg _ _ (urgencyScoresOf_nonneg _ _ _ _ _) hr
      have hub : 0 ≤ (urgencyClassify ClassifierConfig.default
            (buildUrgencyPatterns ClassifierConfig.default ur) pc
            (validateEmailData ClassifierConfig.default d).content
            (validateEmailData ClassifierConfig.default d).subject eb st).1.2 ∧
          (urgencyClassify ClassifierConfig.default
            (buildUrgencyPatterns ClassifierConfig.default ur) pc
            (validateEmailData ClassifierConfig.default d).content
            (validateEmailData ClassifierConfig.default d).subject eb st).1.2 ≤ 1 :=
        determineFinalUrgency_conf_bounds _ _ hsn
          (by norm_num [buildUrgencyPatterns, ClassifierConfig.default,
            UrgencyThresholds.default])
      have hdb : 0 ≤ (departmentClassify ClassifierConfig.default
            (buildDeptPatterns dr)
            (validateEmailData ClassifierConfig.default d).content
            (validateEmailData ClassifierConfig.default d).subject
            (validateEmailData ClassifierConfig.default d).sender bb
            (urgencyClassify ClassifierConfig.default
              (buildUrgencyPatterns ClassifierConfig.default ur) pc
              (validateEmailData ClassifierConfig.default d).content
              (validateEmailData ClassifierConfig.default d).subject eb st).2).1.2 ∧
          (departmentClassify ClassifierConfig.default
            (buildDeptPatterns dr)
            (validateEmailData ClassifierConfig.default d).content
            (validateEmailData ClassifierConfig.default d).subject
            (validateEmailData ClassifierConfig.default d).sender bb
            (urgencyClassify ClassifierConfig.default
              (buildUrgencyPatterns ClassifierConfig.default ur) pc
              (validateEmailData ClassifierConfig.default d).content
              (validateEmailData ClassifierConfig.default d).subject eb st).2).1.2 ≤ 1 :=
        determineFinalDepartment_conf_bounds _
      have hcb := crossValidate_conf_bounds
        (urgencyClassify ClassifierConfig.default
          (buildUrgencyPatterns ClassifierConfig.default ur) pc
          (validateEmailData ClassifierConfig.default d).content
          (validateEmailData ClassifierConfig.default d).subject eb st).1.1
        (urgencyClassify ClassifierConfig.default
          (buildUrgencyPatterns ClassifierConfig.default ur) pc
          (validateEmailData ClassifierConfig.default d).content
          (validateEmailData ClassifierConfig.default d).subject eb st).1.2
        (departmentClassify ClassifierConfig.default
          (buildDeptPatterns dr)
          (validateEmailData ClassifierConfig.default d).content
          (validateEmailData ClassifierConfig.default d).subject
          (validateEmailData ClassifierConfig.default d).sender bb
          (urgencyClassify ClassifierConfig.default
            (buildUrgencyPatterns ClassifierConfig.default ur) pc
            (validateEmailData ClassifierConfig.default d).content
            (validateEmailData ClassifierConfig.default d).subject eb st).2).1.1
        (departmentClassify ClassifierConfig.default
          (buildDeptPatterns dr)
          (validateEmailData ClassifierConfig.default d).content
          (validateEmailData ClassifierConfig.default d).subject
          (validateEmailData ClassifierConfig.default d).sender bb
          (urgencyClassify ClassifierConfig.default
            (buildUrgencyPatterns ClassifierConfig.default ur) pc
            (validateEmailData ClassifierConfig.default d).content
            (validateEmailData ClassifierConfig.default d).subject eb st).2).1.2
        (validateEmailData ClassifierConfig.default d).content hub.1 hub.2
      have hdfix := (crossValidate_spec
        (urgencyClassify ClassifierConfig.default
          (buildUrgencyPatterns ClassifierConfig.default ur) pc
          (validateEmailData ClassifierConfig.default d).content
          (validateEmailData ClassifierConfig.default d).subject eb st).1.1
        (urgencyClassify ClassifierConfig.default
          (buildUrgencyPatterns ClassifierConfig.default ur) pc
          (validateEmailData ClassifierConfig.default d).content
          (validateEmailData ClassifierConfig.default d).subject eb st).1.2
        (departmentClassify ClassifierConfig.default
          (buildDeptPatterns dr)
          (validateEmailData ClassifierConfig.default d).content
          (validateEmailData ClassifierConfig.default d).subject
          (validateEmailData ClassifierConfig.default d).sender bb
          (urgencyClassify ClassifierConfig.default
            (buildUrgencyPatterns ClassifierConfig.default ur) pc
            (validateEmailData ClassifierConfig.default d).content
            (validateEmailData ClassifierConfig.default d).subject eb st).2).1.1
        (departmentClassify ClassifierConfig.default
          (buildDeptPatterns dr)
          (validateEmailData ClassifierConfig.default d).content
          (validateEmailData ClassifierConfig.default d).subject
          (validateEmailData ClassifierConfig.default d).sender bb
          (urgencyClassify ClassifierConfig.default
            (buildUrgencyPatterns ClassifierConfig.default ur) pc
            (validateEmailData ClassifierConfig.default d).content
            (validateEmailData ClassifierConfig.default d).subject eb st).2).1.2
        (validateEmailData ClassifierConfig.default d).content).2.1
      have huc : r.urgencyConfidence = (crossValidate
          (urgencyClassify ClassifierConfig.default
            (buildUrgencyPatterns ClassifierConfig.default ur) pc
            (validateEmailData ClassifierConfig.default d).content
            (validateEmailData ClassifierConfig.default d).subject eb st).1.1
          (urgencyClassify ClassifierConfig.default
            (buildUrgencyPatterns ClassifierConfig.default ur) pc
            (validateEmailData ClassifierConfig.default d).content
            (validateEmailData ClassifierConfig.default d).subject eb st).1.2
          (departmentClassify ClassifierConfig.default
            (buildDeptPatterns dr)
            (validateEmailData ClassifierConfig.default d).content
            (validateEmailData ClassifierConfig.default d).subject
            (validateEmailData ClassifierConfig.default d).sender bb
            (urgencyClassify ClassifierConfig.default
              (buildUrgencyPatterns ClassifierConfig.default ur) pc
              (validateEmailData ClassifierConfig.default d).content
              (validateEmailData ClassifierConfig.default d).subject eb st).2).1.1
          (departmentClassify ClassifierConfig.default
            (buildDeptPatterns dr)
            (validateEmailData ClassifierConfig.default d).content
            (validateEmailData ClassifierConfig.default d).subject
            (validateEmailData ClassifierConfig.default d).sender bb
            (urgencyClassify ClassifierConfig.default
              (buildUrgencyPatterns ClassifierConfig.default ur) pc
              (validateEmailData ClassifierConfig.default d).content
              (validateEmailData ClassifierConfig.default d).subject eb st).2).1.2
          (validateEmailData ClassifierConfig.default d).content).urgencyConf := rfl
      have hdc : r.departmentConfidence = (departmentClassify ClassifierConfig.default
          (buildDeptPatterns dr)
          (validateEmailData ClassifierConfig.default d).content
          (validateEmailData ClassifierConfig.default d).subject
          (validateEmailData ClassifierConfig.default d).sender bb
          (urgencyClassify ClassifierConfig.default
            (buildUrgencyPatterns ClassifierConfig.default ur) pc
            (validateEmailData ClassifierConfig.default d).content
            (validateEmailData ClassifierConfig.default d).subject eb st).2).1.2 := by
        rw [show r.departmentConfidence = (crossValidate
          (urgencyClassify ClassifierConfig.default
            (buildUrgencyPatterns ClassifierConfig.default ur) pc
            (validateEmailData ClassifierConfig.default d).content
            (validateEmailData ClassifierConfig.default d).subject eb st).1.1
          (urgencyClassify ClassifierConfig.default
            (buildUrgencyPatterns ClassifierConfig.default ur) pc
            (validateEmailData ClassifierConfig.default d).content
            (validateEmailData ClassifierConfig.default d).subject eb st).1.2
          (departmentClassify ClassifierConfig.default
            (buildDeptPatterns dr)
            (validateEmailData ClassifierConfig.default d).content
            (validateEmailData ClassifierConfig.default d).subject
            (validateEmailData ClassifierConfig.default d).sender bb
            (urgencyClassify ClassifierConfig.default
              (buildUrgencyPatterns ClassifierConfig.default ur) pc
              (validateEmailData ClassifierConfig.default d).content
              (validateEmailData ClassifierConfig.default d).subject eb st).2).1.1
          (departmentClassify ClassifierConfig.default
            (buildDeptPatterns dr)
            (validateEmailData ClassifierConfig.default d).content
            (validateEmailData ClassifierConfig.default d).subject
            (validateEmailData ClassifierConfig.default d).sender bb
            (urgencyClassify ClassifierConfig.default
              (buildUrgencyPatterns ClassifierConfig.default ur) pc
              (validateEmailData ClassifierConfig.default d).content
              (validateEmailData ClassifierConfig.default d).subject eb st).2).1.2
          (validateEmailData ClassifierConfig.default d).content).departmentConf from rfl]
        rw [hdfix]
      have hover : r.overallConfidence =
          (r.urgencyConfidence + r.departmentConfidence) / 2 := rfl
      rw [← huc] at hcb
      rw [← hdc] at hdb
      refine ⟨henum1, henum2, hcb.1, hcb.2, hdb.1, hdb.2, ?_, ?_⟩
      · rw [hover]
        linarith [hcb.1, hdb.1]
      · rw [hover]
        linarith [hcb.2, hdb.2]

/-- Claim C1 witness: concrete instantiation with all input fields missing and
an emotion provider returning a valid probability vector. -/
theorem claim_C1_classify_result_valid_witness :
    let r := (classifyEmail ClassifierConfig.default
      (buildUrgencyPatterns ClassifierConfig.default emptyUrgencyRules)
      (buildDeptPatterns emptyDeptRules) (fun _ => 0)
      (ProviderBehaviour.result (some ⟨0.5, 0, 0⟩)) ProviderBehaviour.absent
      none 0 initialModelState ⟨none, none, none⟩).1
    (r.urgency = Urgency.critical ∨ r.urgency = Urgency.high ∨
      r.urgency = Urgency.medium ∨ r.urgency = Urgency.low) ∧
    (r.department = Dept.technical ∨ r.department = Dept.billing ∨
      r.department = Dept.sales ∨ r.department = Dept.support) ∧
    0 ≤ r.urgencyConfidence ∧ r.urgencyConfidence ≤ 1 ∧
    0 ≤ r.departmentConfidence ∧ r.departmentConfidence ≤ 1 ∧
    0 ≤ r.overallConfidence ∧ r.overallConfidence ≤ 1 :=
  claim_C1_classify_result_valid emptyUrgencyRules emptyDeptRules (fun _ => 0)
    (ProviderBehaviour.result (some ⟨0.5, 0, 0⟩)) ProviderBehaviour.absent
    none 0 initialModelState ⟨none, none, none⟩
    (by
      intro e h
      injection h with h1
      injection h1 with h2
      rw [← h2]
      norm_num)
